import Mathlib

/-!
Verification development for the MarkovChainBot repository.

The authoritative implementation is the command-supporting Bot class
(the richer of the two near-duplicate bot files).  Pure logic is
embedded directly; the side-effecting collaborators (Slack client sends,
store queries and inserts, generator invocations) are embedded as an
explicit effect trace, and the store and text generator are passed as
function parameters.
-/

/-- The apostrophe character, built from its code point. -/
def apoStr : String := String.mk [Char.ofNat 39]

/-- A persisted chat record, following the Message schema
(type, channel, user, text, ts, team); ts holds milliseconds, since the
code stores new Date(msg.ts * 1000). -/
structure StoredRecord where
  type : String
  channel : String
  user : String
  text : String
  ts : Int
  team : String
deriving DecidableEq, Repr

/-- Effects observable at the collaborator boundary: outbound chat sends,
store queries, generator invocations, store inserts, and store removals. -/
inductive Effect where
  | send (text : String) (channel : String)
  | query (user : String) (limit : Int)
  | genCall (seed : String) (maxLength : Int)
  | insert (record : StoredRecord)
  | removeAll (user : String)
deriving DecidableEq, Repr

/-- An inbound chat event as delivered by the transport. -/
structure Msg where
  type : String
  channel : String
  user : String
  text : String
  ts : Int
  team : String
  subtype : Option String
deriving DecidableEq, Repr

/-- The bot state the dispatch logic reads: the resolved identity id and
the configured limit (this.config.limit). -/
structure BotState where
  id : String
  configLimit : Int
deriving DecidableEq, Repr

/-- The query parameters object built by getMsgTag
({user, channel, limit}). -/
structure QueryParams where
  user : String
  channel : String
  limit : Int
deriving DecidableEq, Repr

/-- Outcome of getMsgTag: an object (request), null (denied), or false
(irrelevant). -/
inductive TagOutcome where
  | irrelevant
  | denied
  | request (params : QueryParams)
deriving DecidableEq, Repr

/-- Splits a character list at every occurrence of the separator,
keeping empty pieces, exactly as the JS String.split with a single
character separator does. -/
def splitCh (sep : Char) : List Char → List (List Char)
  | [] => [[]]
  | c :: rest =>
    let r := splitCh sep rest
    if c = sep then [] :: r
    else
      match r with
      | [] => [[c]]
      | g :: gs => (c :: g) :: gs

/-- Embeds msg.text.split(" ") from the source: split on every single
space, keeping empty tokens. -/
def jsSplitSpace (s : String) : List String :=
  (splitCh ' ' s.data).map (fun l => String.mk l)

/-- Embeds Array.prototype.join(" ") from the source. -/
def jsJoinSpace : List String → String
  | [] => ""
  | [a] => a
  | a :: rest => a ++ " " ++ jsJoinSpace rest

/-- Numeric value of a decimal digit character. -/
def digitVal (c : Char) : Int := Int.ofNat (c.toNat - 48)

/-- Recognizes a hexadecimal digit character. -/
def isHexDigit (c : Char) : Bool :=
  c.isDigit || (97 ≤ c.toNat && c.toNat ≤ 102) || (65 ≤ c.toNat && c.toNat ≤ 70)

/-- Numeric value of a hexadecimal digit character. -/
def hexDigitVal (c : Char) : Int :=
  if c.isDigit then Int.ofNat (c.toNat - 48)
  else if 97 ≤ c.toNat then Int.ofNat (c.toNat - 87)
  else Int.ofNat (c.toNat - 55)

/-- Horner evaluation of a digit list in a given base. -/
def digitsToInt (base : Int) (val : Char → Int) (ds : List Char) : Int :=
  ds.foldl (fun a c => a * base + val c) 0

/-- Embeds the JS parseInt applied with no radix argument: skip leading
whitespace, read an optional sign, detect a 0x or 0X prefix (hexadecimal),
take the longest digit run, and fail (NaN, modelled as none) when no
digit is read. -/
def parseIntJS (s : String) : Option Int :=
  let cs0 := s.data.dropWhile Char.isWhitespace
  let neg : Bool := cs0.head? == some '-'
  let cs1 := if cs0.head? == some '-' || cs0.head? == some '+' then cs0.tail else cs0
  let isHex : Bool :=
    match cs1 with
    | c0 :: c1 :: _ => c0 == '0' && (c1 == 'x' || c1 == 'X')
    | _ => false
  if isHex then
    let ds := (cs1.drop 2).takeWhile isHexDigit
    if ds.isEmpty then none
    else some ((if neg then -1 else 1) * digitsToInt 16 hexDigitVal ds)
  else
    let ds := cs1.takeWhile Char.isDigit
    if ds.isEmpty then none
    else some ((if neg then -1 else 1) * digitsToInt 10 digitVal ds)

/-- Embeds the template literal for the mention of a user id. -/
def mentionOf (id : String) : String := "<@" ++ id ++ ">"

/-- Embeds msgArray[1].replace(/[^0-9a-z]/gi, ""): keep only ASCII
letters and digits. -/
def stripTag (s : String) : String := String.mk (s.data.filter (fun c => c.isAlphanum))

/-- Embeds msgArray[1].indexOf("<@") == 0. -/
def startsWithLt (s : String) : Bool :=
  match s.data with
  | c0 :: c1 :: _ => c0 == '<' && c1 == '@'
  | _ => false

/-- Embeds parseInt(msgArray[2]) || this.config.limit: an absent token
gives NaN, and both NaN and 0 are falsy, so they fall back to the
configured limit. -/
def limitFrom (tokens : List String) (d : Int) : Int :=
  match tokens[2]? with
  | none => d
  | some t =>
    match parseIntJS t with
    | none => d
    | some n => if n == 0 then d else n

/-- Embeds the boolean essence of isCalled from the source: the token
list is nonempty, token 1 is truthy (present and nonempty), and token 0
equals the mention of the bot id. -/
def isCalled (id : String) (tokens : List String) : Bool :=
  !tokens.isEmpty && tokens[1]?.getD "" != "" && tokens[0]?.getD "" == mentionOf id

/-- The fixed denial sentence sent by deny(channel). -/
def denyText : String :=
  "I" ++ apoStr ++ "m sorry, Dave. I" ++ apoStr ++ "m afraid I can" ++ apoStr ++ "t do that"

/-- Embeds deny(channel): send the fixed denial sentence. -/
def deny (channel : String) : Effect := Effect.send denyText channel

/-- Embeds getMsgTag from the source: tokenize on spaces, require the
bot to be called, then classify token 1 as the me shorthand, a user
mention (denying a self mention), or irrelevant.  The paired list holds
the sends performed during classification. -/
def getMsgTag (b : BotState) (m : Msg) : TagOutcome × List Effect :=
  let msgArray := jsSplitSpace m.text
  if isCalled b.id msgArray then
    let t1 := msgArray[1]?.getD ""
    if t1 == "me" then
      (TagOutcome.request ⟨m.user, m.channel, limitFrom msgArray b.configLimit⟩, [])
    else if startsWithLt t1 then
      if t1 == mentionOf b.id then
        (TagOutcome.denied, [deny m.channel])
      else
        (TagOutcome.request ⟨stripTag t1, m.channel, limitFrom msgArray b.configLimit⟩, [])
    else (TagOutcome.irrelevant, [])
  else (TagOutcome.irrelevant, [])

/-- A command table entry: the method name the dispatcher invokes
dynamically and the help description. -/
structure Command where
  method : String
  description : String
deriving DecidableEq, Repr

/-- Description text of the purge command. -/
def purgeDescription : String :=
  "Purges all of a user" ++ apoStr ++ "s messages from the database"

/-- Description text of the help command. -/
def helpDescription : String := "Displays the help message"

/-- Embeds the lookup this._commands[k] over the table set up by
setCommands: purge and help. -/
def lookupCommand (k : String) : Option Command :=
  if k == "purge" then some ⟨"_purge", purgeDescription⟩
  else if k == "help" then some ⟨"_help", helpDescription⟩
  else none

/-- A resolved command invocation ({method, description, args}). -/
structure Invocation where
  method : String
  description : String
  args : List String
deriving DecidableEq, Repr

/-- Embeds parseCommand from the source: require the bot to be called
and token 0 truthy, shift off the mention, look the next token up in the
command table, and take the remainder as arguments. -/
def parseCommand (b : BotState) (m : Msg) : Option Invocation :=
  let msgArr := jsSplitSpace m.text
  if isCalled b.id msgArr && msgArr[0]?.getD "" != "" then
    let rest := msgArr.tail
    match lookupCommand (rest[0]?.getD "") with
    | some cmd => some ⟨cmd.method, cmd.description, rest.tail⟩
    | none => none
  else none

/-- The help command reply: a header line followed by one line per
registered command, joined by carriage returns. -/
def helpText : String :=
  "Here is a list of the commands I know: \r" ++ "\r" ++
    "`purge`: " ++ purgeDescription ++ "\r" ++ "`help`: " ++ helpDescription

/-- Embeds the dynamic dispatch this[methodName](msg, args): the purge
handler removes all of the message author records and confirms, the help
handler sends the command list; any other name is a thrown TypeError,
modelled as none. -/
def runMethod (methodName : String) (m : Msg) : Option (List Effect) :=
  if methodName == "_purge" then
    some [Effect.removeAll m.user,
          Effect.send (mentionOf m.user ++ " Your messages have been purged!") m.channel]
  else if methodName == "_help" then
    some [Effect.send helpText m.channel]
  else none

/-- Embeds exec from the source: when the arguments hold -h or --help,
send the description of the command named by token 1 of the original
text instead of invoking the handler; otherwise dispatch the handler.
A lookup of an unregistered token 1 in the help branch is a thrown
TypeError, modelled as none. -/
def exec (methodName : String) (m : Msg) (args : List String) : Option (List Effect) :=
  if args.contains "-h" || args.contains "--help" then
    let prop := (jsSplitSpace m.text)[1]?.getD ""
    (lookupCommand prop).map (fun c => [Effect.send c.description m.channel])
  else
    runMethod methodName m

/-- Embeds warrantsSave: true unless the subtype is present, truthy and
equal to file_share. -/
def warrantsSave (m : Msg) : Bool :=
  match m.subtype with
  | some st => if st != "" && st == "file_share" then false else true
  | none => true

/-- The record built by saveMessage: the message fields with the
epoch-second timestamp converted to milliseconds (new Date(ts * 1000)). -/
def toRecord (m : Msg) : StoredRecord :=
  ⟨m.type, m.channel, m.user, m.text, m.ts * 1000, m.team⟩

/-- Embeds saveMessage as its insert effect on the store. -/
def saveMessage (m : Msg) : List Effect := [Effect.insert (toRecord m)]

/-- Embeds the completion callback passed to message.save: a reported
error is rethrown (Except.error), success returns unit. -/
def saveCallback (err : Option String) : Except String Unit :=
  match err with
  | some e => Except.error e
  | none => Except.ok ()

/-- Embeds postChain: send the mention of the user, the word says, and
the chain to the channel. -/
def postChain (chain : String) (user : String) (channel : String) : Effect :=
  Effect.send ("<@" ++ user ++ "> says: " ++ chain) channel

/-- Embeds generate from the source over an abstract store and an
abstract Markov generator: query the store for the target user capped at
params.limit; deny when no messages come back; otherwise join the texts
with spaces, call the generator with the seed and this.config.limit
(generateChain), and post the chain. -/
def generate (b : BotState) (store : String → Int → List StoredRecord)
    (gen : String → Int → String) (params : QueryParams) : List Effect :=
  let messages := store params.user params.limit
  Effect.query params.user params.limit ::
    (if messages.isEmpty then
      [deny params.channel]
    else
      let textArr := messages.map (fun r => r.text)
      let seed := jsJoinSpace textArr
      let chain := gen seed b.configLimit
      [Effect.genCall seed b.configLimit, postChain chain params.user params.channel])

/-- Embeds the message-event handler installed by run: classify with
getMsgTag (whose denial send happens first), resolve a command, then
either run the generation pipeline, execute the command, or save the
message when the tag outcome was exactly false and the message warrants
saving.  The none result models an exception escaping the handler. -/
def runHandler (b : BotState) (store : String → Int → List StoredRecord)
    (gen : String → Int → String) (m : Msg) : Option (List Effect) :=
  let tagged := getMsgTag b m
  let command := parseCommand b m
  match tagged.1 with
  | TagOutcome.request q => some (tagged.2 ++ generate b store gen q)
  | _ =>
    match command with
    | some c => (exec c.method m c.args).map (fun es => tagged.2 ++ es)
    | none =>
      match tagged.1 with
      | TagOutcome.irrelevant =>
        if warrantsSave m then some (tagged.2 ++ saveMessage m) else some tagged.2
      | _ => some tagged.2

/-- A JS value stored in a configuration object. -/
inductive JsVal where
  | str (s : String)
  | num (n : Int)
deriving DecidableEq, Repr

/-- Assignment of one own property on a JS object, modelled as an
ordered key-value list: overwrite in place when the key exists,
otherwise append. -/
def setProp (o : List (String × JsVal)) (k : String) (v : JsVal) : List (String × JsVal) :=
  if o.any (fun kv => kv.1 == k) then
    o.map (fun kv => if kv.1 == k then (k, v) else kv)
  else o ++ [(k, v)]

/-- Property read on a JS object model. -/
def getProp (o : List (String × JsVal)) (k : String) : Option JsVal :=
  (o.find? (fun kv => kv.1 == k)).map (fun kv => kv.2)

/-- Embeds Object.assign(target, source): copy every own property of
the source onto the target, in place, and return the mutated target. -/
def objectAssign (target source : List (String × JsVal)) : List (String × JsVal) :=
  source.foldl (fun acc kv => setProp acc kv.1 kv.2) target

/-- The module-level default configuration object, with its numeric
limit 150 and the package metadata. -/
def defaultConfigInit : List (String × JsVal) :=
  [("limit", JsVal.num 150), ("package", JsVal.str "package-info")]

/-- Embeds this.config = Object.assign(defaultConfig, config) in the
constructor: the first component is the bot configuration, the second is
the new value of the shared module-level default object (the same
object). -/
def constructConfig (moduleDefault userCfg : List (String × JsVal)) :
    List (String × JsVal) × List (String × JsVal) :=
  let merged := objectAssign moduleDefault userCfg
  (merged, merged)

/-- First team configuration used to exercise the constructor merge. -/
def cfgTeamOne : List (String × JsVal) :=
  [("token", JsVal.str "t1"), ("name", JsVal.str "n1"),
   ("connection", JsVal.str "db1"), ("limit", JsVal.num 42)]

/-- Second team configuration, with no limit field. -/
def cfgTeamTwo : List (String × JsVal) :=
  [("token", JsVal.str "t2"), ("name", JsVal.str "n2"), ("connection", JsVal.str "db2")]

example : jsSplitSpace "<@BOT> me 10" = ["<@BOT>", "me", "10"] := by decide
example : parseIntJS "10" = some 10 := by decide
example : parseIntJS "0" = some 0 := by decide
example : parseIntJS "abc" = none := by decide
example : parseIntJS "0x10" = some 16 := by decide
example : (getMsgTag ⟨"BOT", 150⟩ ⟨"message", "C", "U", "<@BOT> me 10", 5, "T", none⟩).1
    = TagOutcome.request ⟨"U", "C", 10⟩ := by decide
example : getMsgTag ⟨"BOT", 150⟩ ⟨"message", "C", "U", "<@BOT> <@BOT>", 5, "T", none⟩
    = (TagOutcome.denied, [Effect.send denyText "C"]) := by decide
example : (getMsgTag ⟨"BOT", 150⟩ ⟨"message", "C", "U", "<@BOT> <@U2>! 5", 5, "T", none⟩).1
    = TagOutcome.request ⟨"U2", "C", 5⟩ := by decide
example : parseCommand ⟨"BOT", 150⟩ ⟨"message", "C", "U", "<@BOT> purge -h x", 5, "T", none⟩
    = some ⟨"_purge", purgeDescription, ["-h", "x"]⟩ := by decide
example : parseCommand ⟨"BOT", 150⟩ ⟨"message", "C", "U", "<@BOT> frob x", 5, "T", none⟩
    = none := by decide
example : runHandler ⟨"BOT", 150⟩ (fun _ _ => []) (fun _ _ => "g")
    ⟨"message", "C", "U", "hello there", 5, "T", none⟩
    = some [Effect.insert ⟨"message", "C", "U", "hello there", 5000, "T"⟩] := by decide
example : runHandler ⟨"BOT", 150⟩ (fun _ _ => []) (fun _ _ => "g")
    ⟨"message", "C", "U", "hello", 5, "T", some "file_share"⟩ = some [] := by decide
example : runHandler ⟨"BOT", 150⟩ (fun _ _ => []) (fun _ _ => "g")
    ⟨"message", "C", "U", "<@BOT> <@BOT>", 5, "T", none⟩
    = some [Effect.send denyText "C"] := by decide
example :
    generate ⟨"BOT", 150⟩
      (fun _ _ => [⟨"message", "C", "U", "a", 1, "T"⟩, ⟨"message", "C", "U", "b", 2, "T"⟩,
        ⟨"message", "C", "U", "c", 3, "T"⟩])
      (fun s n => s ++ toString n) ⟨"U", "C", 10⟩
    = [Effect.query "U" 10, Effect.genCall "a b c" 150,
       Effect.send "<@U> says: a b c150" "C"] := by decide
example :
    (constructConfig defaultConfigInit [("token", JsVal.str "t"), ("limit", JsVal.num 42)]).2
    = [("limit", JsVal.num 42), ("package", JsVal.str "package-info"),
       ("token", JsVal.str "t")] := by decide

/-- The character list of a mention literal. -/
theorem mentionOf_data (id : String) :
    (mentionOf id).data = '<' :: '@' :: (id.data ++ ['>']) := by
  simp [mentionOf, String.data_append]

/-- A mention literal always opens with the left angle bracket. -/
theorem mentionOf_head (id : String) : (mentionOf id).data.head? = some '<' := by
  rw [mentionOf_data]; rfl

/-- A mention literal is never the empty string. -/
theorem mentionOf_ne_empty (id : String) : mentionOf id ≠ "" := by
  intro h
  have h1 := mentionOf_head id
  rw [h] at h1
  exact absurd h1 (by decide)

/-- A mention literal is never the token me. -/
theorem mentionOf_ne_me (id : String) : mentionOf id ≠ "me" := by
  intro h
  have h1 := mentionOf_head id
  rw [h] at h1
  exact absurd h1 (by decide)

/-- A mention literal is never the command keyword purge. -/
theorem mentionOf_ne_purge (id : String) : mentionOf id ≠ "purge" := by
  intro h
  have h1 := mentionOf_head id
  rw [h] at h1
  exact absurd h1 (by decide)

/-- A mention literal is never the command keyword help. -/
theorem mentionOf_ne_help (id : String) : mentionOf id ≠ "help" := by
  intro h
  have h1 := mentionOf_head id
  rw [h] at h1
  exact absurd h1 (by decide)

/-- A mention literal passes the prefix check of getMsgTag. -/
theorem startsWithLt_mentionOf (id : String) : startsWithLt (mentionOf id) = true := by
  simp [startsWithLt, mentionOf_data]

/-- The command table holds no mention literal. -/
theorem lookupCommand_mentionOf (id : String) : lookupCommand (mentionOf id) = none := by
  simp [lookupCommand, mentionOf_ne_purge, mentionOf_ne_help]

/-- Indexing the tail of a list at zero is indexing the list at one. -/
theorem tail_getElem_zero (l : List String) : l.tail[0]? = l[1]? := by
  cases l <;> simp

/-- Decomposition of a successful isCalled check. -/
theorem isCalled_parts (id : String) (tokens : List String)
    (h : isCalled id tokens = true) :
    tokens ≠ [] ∧ tokens[1]?.getD "" ≠ "" ∧ tokens[0]?.getD "" = mentionOf id := by
  simp only [isCalled, Bool.and_eq_true, Bool.not_eq_true', bne_iff_ne, beq_iff_eq] at h
  refine ⟨?_, h.1.2, h.2⟩
  intro hnil
  rw [hnil] at h
  exact absurd h.1.1 (by decide)

/-- When getMsgTag classifies a message as irrelevant it performs no
sends. -/
theorem getMsgTag_irrelevant_eff (b : BotState) (m : Msg)
    (h : (getMsgTag b m).1 = TagOutcome.irrelevant) : (getMsgTag b m).2 = [] := by
  simp only [getMsgTag] at h ⊢
  repeat' split at h <;> simp_all

/-- When getMsgTag produces a request it performs no sends. -/
theorem getMsgTag_request_eff (b : BotState) (m : Msg) (q : QueryParams)
    (h : (getMsgTag b m).1 = TagOutcome.request q) : (getMsgTag b m).2 = [] := by
  simp only [getMsgTag] at h ⊢
  repeat' split at h <;> simp_all

/-- When getMsgTag denies, the message was a call whose token 1 is the
mention of the bot itself, and the single effect is the denial send. -/
theorem getMsgTag_denied_shape (b : BotState) (m : Msg)
    (h : (getMsgTag b m).1 = TagOutcome.denied) :
    isCalled b.id (jsSplitSpace m.text) = true ∧
    (jsSplitSpace m.text)[1]?.getD "" = mentionOf b.id ∧
    (getMsgTag b m).2 = [Effect.send denyText m.channel] := by
  simp only [getMsgTag] at h ⊢
  repeat' split at h <;> simp_all [deny]

/-- Reassociation of the reply string built by postChain: it is the
mention of the user followed by the says segment and the chain. -/
theorem postChain_text_eq (chain user : String) :
    "<@" ++ user ++ "> says: " ++ chain = mentionOf user ++ (" says: " ++ chain) := by
  apply String.ext
  have h1 : ("> says: " : String).data = ('>' :: (" says: " : String).data) := rfl
  simp [mentionOf, String.data_append, h1]

/-- When getMsgTag denies, no command resolves: the keyword position
holds the mention of the bot, which the command table does not know. -/
theorem parseCommand_of_denied (b : BotState) (m : Msg)
    (h : (getMsgTag b m).1 = TagOutcome.denied) : parseCommand b m = none := by
  obtain ⟨hc, ht1, _⟩ := getMsgTag_denied_shape b m h
  obtain ⟨_, _, h0⟩ := isCalled_parts b.id (jsSplitSpace m.text) hc
  simp only [parseCommand, hc, h0, tail_getElem_zero, ht1, lookupCommand_mentionOf,
    Bool.true_and]
  simp [mentionOf_ne_empty]

/-- C3: for every GenerationRequest whose target user has zero stored
messages, the pipeline performs the store query, sends exactly the fixed
denial string to the request channel, and never calls the generator. -/
theorem empty_corpus_denial (b : BotState) (store : String → Int → List StoredRecord)
    (gen : String → Int → String) (params : QueryParams)
    (h : store params.user params.limit = []) :
    generate b store gen params =
      [Effect.query params.user params.limit, Effect.send denyText params.channel] ∧
    ∀ seed len, Effect.genCall seed len ∉ generate b store gen params := by
  simp [generate, h, deny]

/-- Witness for C3 at a store with no messages for the target. -/
theorem empty_corpus_denial_witness :
    generate ⟨"BOT", 150⟩ (fun _ _ => []) (fun _ _ => "out") ⟨"U", "C", 5⟩ =
      [Effect.query "U" 5, Effect.send denyText "C"] ∧
    ∀ seed len, Effect.genCall seed len ∉
      generate ⟨"BOT", 150⟩ (fun _ _ => []) (fun _ _ => "out") ⟨"U", "C", 5⟩ :=
  empty_corpus_denial ⟨"BOT", 150⟩ (fun _ _ => []) (fun _ _ => "out") ⟨"U", "C", 5⟩ rfl

/-- C4: for every nonempty store result, the pipeline queries the store,
calls the generator with the texts joined by single spaces in the order
the store returned them, and posts a reply consisting of the target user
mention followed by the generator output, on the request channel. -/
theorem nonempty_corpus_pipeline (b : BotState) (store : String → Int → List StoredRecord)
    (gen : String → Int → String) (params : QueryParams) (msgs : List StoredRecord)
    (h : store params.user params.limit = msgs) (hne : msgs ≠ []) :
    generate b store gen params =
      [Effect.query params.user params.limit,
       Effect.genCall (jsJoinSpace (msgs.map (fun r => r.text))) b.configLimit,
       Effect.send (mentionOf params.user ++ (" says: " ++
         gen (jsJoinSpace (msgs.map (fun r => r.text))) b.configLimit)) params.channel] := by
  cases msgs with
  | nil => exact absurd rfl hne
  | cons r rs =>
    simp only [generate, h, postChain]
    rw [← postChain_text_eq]
    simp

/-- Witness for C4 at a store returning texts a, b, c. -/
theorem nonempty_corpus_pipeline_witness :
    generate ⟨"BOT", 150⟩
      (fun _ _ => [⟨"message", "C", "U", "a", 1, "T"⟩, ⟨"message", "C", "U", "b", 2, "T"⟩,
        ⟨"message", "C", "U", "c", 3, "T"⟩])
      (fun _ _ => "out") ⟨"U", "C", 10⟩ =
      [Effect.query "U" 10, Effect.genCall "a b c" 150,
       Effect.send (mentionOf "U" ++ (" says: " ++ "out")) "C"] :=
  nonempty_corpus_pipeline ⟨"BOT", 150⟩
    (fun _ _ => [⟨"message", "C", "U", "a", 1, "T"⟩, ⟨"message", "C", "U", "b", 2, "T"⟩,
      ⟨"message", "C", "U", "c", 3, "T"⟩])
    (fun _ _ => "out") ⟨"U", "C", 10⟩ _ rfl (by decide)

/-- C5 counterexample: a request whose limit 10 differs from the
configured limit 150; the store query is capped at 10 but the generator
receives the bound 150, so no generator call carries the request limit. -/
theorem generator_bound_cex :
    generate ⟨"BOT", 150⟩ (fun _ _ => [⟨"message", "C", "U", "a", 1, "T"⟩])
      (fun _ _ => "out") ⟨"U", "C", 10⟩ =
      [Effect.query "U" 10, Effect.genCall "a" 150, Effect.send "<@U> says: out" "C"] ∧
    (∀ seed, Effect.genCall seed (10 : Int) ∉
      generate ⟨"BOT", 150⟩ (fun _ _ => [⟨"message", "C", "U", "a", 1, "T"⟩])
        (fun _ _ => "out") ⟨"U", "C", 10⟩) ∧
    (150 : Int) ≠ 10 := by
  refine ⟨by decide, ?_, by decide⟩
  intro seed
  simp [generate, jsJoinSpace, postChain]

/-- C5 amended: with a nonempty corpus the maximum-length bound passed
to the generator is always the configured limit of the bot, not the
limit field of the request. -/
theorem generator_bound_is_config (b : BotState) (store : String → Int → List StoredRecord)
    (gen : String → Int → String) (params : QueryParams) (msgs : List StoredRecord)
    (h : store params.user params.limit = msgs) (hne : msgs ≠ []) :
    (∃ seed, Effect.genCall seed b.configLimit ∈ generate b store gen params) ∧
    ∀ seed len, Effect.genCall seed len ∈ generate b store gen params →
      len = b.configLimit := by
  cases msgs with
  | nil => exact absurd rfl hne
  | cons r rs =>
    constructor
    · exact ⟨jsJoinSpace ((r :: rs).map (fun x => x.text)), by simp [generate, h]⟩
    · intro seed len hmem
      simp [generate, h, postChain] at hmem
      exact hmem.2

/-- Witness for C5 amended at a one-message corpus. -/
theorem generator_bound_is_config_witness :
    (∃ seed, Effect.genCall seed (150 : Int) ∈
      generate ⟨"BOT", 150⟩ (fun _ _ => [⟨"message", "C", "U", "a", 1, "T"⟩])
        (fun _ _ => "out") ⟨"U", "C", 10⟩) ∧
    ∀ seed len, Effect.genCall seed len ∈
      generate ⟨"BOT", 150⟩ (fun _ _ => [⟨"message", "C", "U", "a", 1, "T"⟩])
        (fun _ _ => "out") ⟨"U", "C", 10⟩ → len = (150 : Int) :=
  generator_bound_is_config ⟨"BOT", 150⟩ (fun _ _ => [⟨"message", "C", "U", "a", 1, "T"⟩])
    (fun _ _ => "out") ⟨"U", "C", 10⟩ _ rfl (by decide)

/-- C1 counterexample: in the message with text <@BOT> me 0 the third
token is present and parses to the integer 0, yet the produced request
carries the configured default limit 150, because parseInt(tok) || limit
treats the parsed 0 as falsy. -/
theorem me_zero_limit_cex :
    (jsSplitSpace "<@BOT> me 0")[2]? = some "0" ∧
    parseIntJS "0" = some 0 ∧
    (getMsgTag ⟨"BOT", 150⟩ ⟨"message", "C", "U", "<@BOT> me 0", 5, "T", none⟩).1 =
      TagOutcome.request ⟨"U", "C", 150⟩ ∧
    TagOutcome.request (⟨"U", "C", 150⟩ : QueryParams) ≠
      TagOutcome.request ⟨"U", "C", 0⟩ := by decide

/-- C1 amended: for every message whose token 0 is the mention of the
bot and whose token 1 is me, getMsgTag returns a request whose user is
the author, whose channel is the message channel, and whose limit is the
parse of token 2 when that parse is a nonzero integer, and the
configured default when token 2 is absent, not parseable, or parses to
zero; no send is performed. -/
theorem me_request (b : BotState) (m : Msg)
    (h0 : (jsSplitSpace m.text)[0]? = some (mentionOf b.id))
    (h1 : (jsSplitSpace m.text)[1]? = some "me") :
    getMsgTag b m = (TagOutcome.request ⟨m.user, m.channel,
      match (jsSplitSpace m.text)[2]? with
      | none => b.configLimit
      | some t =>
        match parseIntJS t with
        | none => b.configLimit
        | some n => if n == 0 then b.configLimit else n⟩, []) := by
  have hne : jsSplitSpace m.text ≠ [] := by
    intro hnil
    rw [hnil] at h0
    exact absurd h0 (by simp)
  have hg0 : (jsSplitSpace m.text)[0]?.getD "" = mentionOf b.id := by rw [h0]; rfl
  have hg1 : (jsSplitSpace m.text)[1]?.getD "" = "me" := by rw [h1]; rfl
  have hc : isCalled b.id (jsSplitSpace m.text) = true := by
    simp [isCalled, hg0, hg1, hne]
  simp only [getMsgTag, hc, hg1, if_true, limitFrom]
  simp

/-- Witness for C1 amended at the message <@BOT> me 10. -/
theorem me_request_witness :
    getMsgTag ⟨"BOT", 150⟩ ⟨"message", "C", "U", "<@BOT> me 10", 5, "T", none⟩ =
      (TagOutcome.request ⟨"U", "C", 10⟩, []) :=
  me_request ⟨"BOT", 150⟩ ⟨"message", "C", "U", "<@BOT> me 10", 5, "T", none⟩
    (by decide) (by decide)

/-- C2: for every message whose tokens 0 and 1 are both the mention
literal of the bot itself, getMsgTag returns the denial outcome and the
whole event handler performs exactly one denial send on the message
channel: no store query, no generator call, no insert, no command. -/
theorem self_mention_denial (b : BotState) (store : String → Int → List StoredRecord)
    (gen : String → Int → String) (m : Msg)
    (h0 : (jsSplitSpace m.text)[0]? = some (mentionOf b.id))
    (h1 : (jsSplitSpace m.text)[1]? = some (mentionOf b.id)) :
    (getMsgTag b m).1 = TagOutcome.denied ∧
    runHandler b store gen m = some [Effect.send denyText m.channel] := by
  have hne : jsSplitSpace m.text ≠ [] := by
    intro hnil
    rw [hnil] at h0
    exact absurd h0 (by simp)
  have hg0 : (jsSplitSpace m.text)[0]?.getD "" = mentionOf b.id := by rw [h0]; rfl
  have hg1 : (jsSplitSpace m.text)[1]?.getD "" = mentionOf b.id := by rw [h1]; rfl
  have hc : isCalled b.id (jsSplitSpace m.text) = true := by
    simp [isCalled, hg0, hg1, hne, mentionOf_ne_empty]
  have htag : getMsgTag b m = (TagOutcome.denied, [Effect.send denyText m.channel]) := by
    simp only [getMsgTag, hc, hg1, if_true]
    simp [mentionOf_ne_me, startsWithLt_mentionOf, deny]
  have hcmd : parseCommand b m = none := parseCommand_of_denied b m (by rw [htag])
  refine ⟨by rw [htag], ?_⟩
  simp only [runHandler, htag, hcmd]

/-- Witness for C2 at the message <@BOT> <@BOT>. -/
theorem self_mention_denial_witness :
    (getMsgTag ⟨"BOT", 150⟩ ⟨"message", "C", "U", "<@BOT> <@BOT>", 5, "T", none⟩).1 =
      TagOutcome.denied ∧
    runHandler ⟨"BOT", 150⟩ (fun _ _ => []) (fun _ _ => "out")
      ⟨"message", "C", "U", "<@BOT> <@BOT>", 5, "T", none⟩ =
      some [Effect.send denyText "C"] :=
  self_mention_denial ⟨"BOT", 150⟩ (fun _ _ => []) (fun _ _ => "out")
    ⟨"message", "C", "U", "<@BOT> <@BOT>", 5, "T", none⟩ (by decide) (by decide)

/-- C6: for every resolved command invocation whose argument list holds
-h or --help at any position, exec sends the description of the command
named by token 1 of the original message text and performs nothing else,
in particular it never reaches the handler dispatch. -/
theorem help_flag_sends_description (b : BotState) (m : Msg) (inv : Invocation)
    (hp : parseCommand b m = some inv)
    (hh : inv.args.contains "-h" = true ∨ inv.args.contains "--help" = true) :
    ∃ c : Command,
      lookupCommand ((jsSplitSpace m.text)[1]?.getD "") = some c ∧
      inv.description = c.description ∧
      exec inv.method m inv.args = some [Effect.send c.description m.channel] := by
  simp only [parseCommand] at hp
  split at hp
  case isFalse => exact absurd hp (by simp)
  case isTrue hcond =>
    rw [tail_getElem_zero] at hp
    rcases hgl : lookupCommand ((jsSplitSpace m.text)[1]?.getD "") with _ | cmd
    · rw [hgl] at hp
      exact absurd hp (by simp)
    · rw [hgl] at hp
      have hinv := Option.some.inj hp
      have hor : (inv.args.contains "-h" || inv.args.contains "--help") = true := by
        rcases hh with h | h <;> rw [h] <;> simp
      refine ⟨cmd, rfl, by rw [← hinv], ?_⟩
      simp only [exec, hor, if_true]
      rw [hgl]
      rfl

/-- Witness for C6 at the invocation of purge with a help flag and an
extra argument. -/
theorem help_flag_sends_description_witness :
    ∃ c : Command,
      lookupCommand ((jsSplitSpace "<@BOT> purge -h x")[1]?.getD "") = some c ∧
      (⟨"_purge", purgeDescription, ["-h", "x"]⟩ : Invocation).description = c.description ∧
      exec "_purge" ⟨"message", "C", "U", "<@BOT> purge -h x", 5, "T", none⟩ ["-h", "x"] =
        some [Effect.send c.description "C"] :=
  help_flag_sends_description ⟨"BOT", 150⟩
    ⟨"message", "C", "U", "<@BOT> purge -h x", 5, "T", none⟩
    ⟨"_purge", purgeDescription, ["-h", "x"]⟩ (by decide) (Or.inl (by decide))

/-- C7 counterexample: the message <@BOT> <@BOT> with no subtype is
neither a generation request nor a command, yet the event handler does
not persist it: the denial outcome short-circuits the save branch, so
its trace holds no insert. -/
theorem denial_not_persisted_cex :
    (⟨"message", "C", "U", "<@BOT> <@BOT>", 5, "T", none⟩ : Msg).subtype = none ∧
    (getMsgTag ⟨"BOT", 150⟩ ⟨"message", "C", "U", "<@BOT> <@BOT>", 5, "T", none⟩).1 =
      TagOutcome.denied ∧
    parseCommand ⟨"BOT", 150⟩ ⟨"message", "C", "U", "<@BOT> <@BOT>", 5, "T", none⟩ = none ∧
    runHandler ⟨"BOT", 150⟩ (fun _ _ => []) (fun _ _ => "out")
      ⟨"message", "C", "U", "<@BOT> <@BOT>", 5, "T", none⟩ =
      some [Effect.send denyText "C"] ∧
    Effect.insert (toRecord ⟨"message", "C", "U", "<@BOT> <@BOT>", 5, "T", none⟩) ∉
      [Effect.send denyText "C"] := by decide

/-- C7 amended: for every message on which getMsgTag returns exactly the
false outcome and no command resolves, a file share subtype is never
persisted and any other or missing subtype is persisted with the
epoch-second timestamp multiplied by one thousand. -/
theorem ingestion_save_rule (b : BotState) (store : String → Int → List StoredRecord)
    (gen : String → Int → String) (m : Msg)
    (htag : (getMsgTag b m).1 = TagOutcome.irrelevant)
    (hcmd : parseCommand b m = none) :
    (m.subtype = some "file_share" → runHandler b store gen m = some []) ∧
    (m.subtype ≠ some "file_share" →
      runHandler b store gen m =
        some [Effect.insert ⟨m.type, m.channel, m.user, m.text, m.ts * 1000, m.team⟩]) := by
  have heff := getMsgTag_irrelevant_eff b m htag
  have hpair : getMsgTag b m = (TagOutcome.irrelevant, []) := Prod.ext htag heff
  constructor
  · intro hst
    simp [runHandler, hpair, hcmd, warrantsSave, hst]
  · intro hst
    have hw : warrantsSave m = true := by
      unfold warrantsSave
      cases hsub : m.subtype with
      | none => rfl
      | some st =>
        have hstne : st ≠ "file_share" := by
          intro he
          exact hst (by rw [hsub, he])
        simp [hstne]
    simp [runHandler, hpair, hcmd, hw, saveMessage, toRecord]

/-- Witness for C7 amended at an ordinary chat message. -/
theorem ingestion_save_rule_witness :
    runHandler ⟨"BOT", 150⟩ (fun _ _ => []) (fun _ _ => "out")
      ⟨"message", "C", "U", "hello world", 5, "T", none⟩ =
      some [Effect.insert ⟨"message", "C", "U", "hello world", 5000, "T"⟩] :=
  (ingestion_save_rule ⟨"BOT", 150⟩ (fun _ _ => []) (fun _ _ => "out")
    ⟨"message", "C", "U", "hello world", 5, "T", none⟩ (by decide) (by decide)).2 (by decide)

/-- C8: the completion callback of the message save rethrows a reported
store error instead of returning it: the failure leaves the callback as
a thrown exception, it is not delivered to the caller of saveMessage. -/
theorem saveCallback_rethrows :
    saveCallback (some "E") = Except.error "E" ∧ saveCallback none = Except.ok () :=
  ⟨rfl, rfl⟩


/-- C9: Object.assign(defaultConfig, config) mutates the shared
module-level default object in place: after the first construction the
default carries every field of the first configuration, so a second bot
whose configuration omits limit receives 42 instead of the pristine
default 150. -/
theorem shared_default_config_mutation :
    getProp defaultConfigInit "limit" = some (JsVal.num 150) ∧
    getProp (constructConfig defaultConfigInit cfgTeamOne).2 "token" = some (JsVal.str "t1") ∧
    getProp (constructConfig defaultConfigInit cfgTeamOne).2 "name" = some (JsVal.str "n1") ∧
    getProp (constructConfig defaultConfigInit cfgTeamOne).2 "connection" =
      some (JsVal.str "db1") ∧
    getProp (constructConfig defaultConfigInit cfgTeamOne).2 "limit" = some (JsVal.num 42) ∧
    getProp cfgTeamTwo "limit" = none ∧
    getProp (constructConfig (constructConfig defaultConfigInit cfgTeamOne).2 cfgTeamTwo).1
      "limit" = some (JsVal.num 42) ∧
    JsVal.num 42 ≠ JsVal.num 150 := by decide

/-- The generation pipeline never inserts into the store. -/
theorem generate_no_insert (b : BotState) (store : String → Int → List StoredRecord)
    (gen : String → Int → String) (params : QueryParams) (r : StoredRecord) :
    Effect.insert r ∉ generate b store gen params := by
  simp only [generate]
  split <;> simp [postChain, deny]

/-- Command execution never inserts into the store. -/
theorem exec_no_insert (methodName : String) (m : Msg) (args : List String)
    (es : List Effect) (r : StoredRecord) (h : exec methodName m args = some es) :
    Effect.insert r ∉ es := by
  simp only [exec] at h
  split at h
  · rw [Option.map_eq_some'] at h
    obtain ⟨c, _, hc⟩ := h
    rw [← hc]
    simp
  · simp only [runMethod] at h
    repeat' split at h
    · cases Option.some.inj h
      simp
    · cases Option.some.inj h
      simp
    · exact absurd h (by simp)

/-- C10: on a denial outcome the handler performs exactly the denial
send, never a command handler and never a persist; and an insert occurs
in a handler trace only when getMsgTag returned exactly the false
outcome and no command resolved. -/
theorem denial_short_circuit (b : BotState) (store : String → Int → List StoredRecord)
    (gen : String → Int → String) (m : Msg) :
    ((getMsgTag b m).1 = TagOutcome.denied →
      runHandler b store gen m = some [Effect.send denyText m.channel]) ∧
    (∀ t r, runHandler b store gen m = some t → Effect.insert r ∈ t →
      (getMsgTag b m).1 = TagOutcome.irrelevant ∧ parseCommand b m = none) := by
  constructor
  · intro hd
    obtain ⟨_, _, heff⟩ := getMsgTag_denied_shape b m hd
    have hcmd := parseCommand_of_denied b m hd
    have hpair : getMsgTag b m = (TagOutcome.denied, [Effect.send denyText m.channel]) :=
      Prod.ext hd heff
    simp only [runHandler, hpair, hcmd]
  · intro t r hrun hmem
    rcases htag : (getMsgTag b m).1 with _ | _ | q
    · rcases hcmd : parseCommand b m with _ | c
      · exact ⟨rfl, rfl⟩
      · exfalso
        have heff := getMsgTag_irrelevant_eff b m htag
        have hpair : getMsgTag b m = (TagOutcome.irrelevant, []) := Prod.ext htag heff
        simp only [runHandler, hpair, hcmd] at hrun
        rw [Option.map_eq_some'] at hrun
        obtain ⟨es, hex, hes⟩ := hrun
        have hni := exec_no_insert c.method m c.args es r hex
        rw [← hes] at hmem
        simp only [List.nil_append] at hmem
        exact hni hmem
    · exfalso
      obtain ⟨_, _, heff⟩ := getMsgTag_denied_shape b m htag
      have hcmd := parseCommand_of_denied b m htag
      have hpair : getMsgTag b m = (TagOutcome.denied, [Effect.send denyText m.channel]) :=
        Prod.ext htag heff
      simp only [runHandler, hpair, hcmd, Option.some.injEq] at hrun
      rw [← hrun] at hmem
      simp at hmem
    · exfalso
      have heff := getMsgTag_request_eff b m q htag
      have hpair : getMsgTag b m = (TagOutcome.request q, []) := Prod.ext htag heff
      simp only [runHandler, hpair, Option.some.injEq, List.nil_append] at hrun
      have hni := generate_no_insert b store gen q r
      rw [← hrun] at hmem
      exact hni hmem

/-- Witness for C10 at a self-mention message. -/
theorem denial_short_circuit_witness :
    runHandler ⟨"B2", 150⟩ (fun _ _ => []) (fun _ _ => "out")
      ⟨"message", "C2", "U2", "<@B2> <@B2>", 7, "T2", none⟩ =
      some [Effect.send denyText "C2"] :=
  (denial_short_circuit ⟨"B2", 150⟩ (fun _ _ => []) (fun _ _ => "out")
    ⟨"message", "C2", "U2", "<@B2> <@B2>", 7, "T2", none⟩).1 (by decide)
